import Mathlib

/-!
Verification of the K-Sites CRISPR guide-design engine
(`k_sites/crispr_design/guide_designer.py`).

Shallow embedding conventions:
* DNA sequences and other Python strings that are manipulated character by
  character are `List Char`; Python's ASCII `str.upper()` is `Char.toUpper`
  mapped over the list.
* Python floats are modelled as exact rationals `ℚ` (every constant in the
  source is a finite decimal, so the translation is exact up to floating
  point rounding).
* Python dicts used as constant lookup tables become association lists with
  `List.lookup`, or (for the integer-keyed CFD table, whose keys are the
  contiguous ranges 1-7, 8-12, 13-16 and 17-20) a range-dispatch function.
* Python's stable `list.sort(key=k, reverse=True)` is `List.insertionSort`
  with the relation `fun a b => k b ≤ k a`, which is the unique stable
  descending sort.
-/

namespace KSites

/-! ## Sequence utilities -/

/-- Python `str.upper()` on one ASCII character (`Char.toUpper` has exactly
the Python semantics on the ASCII range used by the designer). -/
def upChar (c : Char) : Char := c.toUpper

/-- Python `str.upper()` over a whole string. -/
def upper (s : List Char) : List Char := s.map upChar

/-- `CRISPRDesigner.COMPLEMENT`: complement mapping for reverse complement,
with `dict.get(base, base)` self-default for unknown characters. -/
def complementChar (c : Char) : Char :=
  match c with
  | 'A' => 'T' | 'T' => 'A' | 'G' => 'C' | 'C' => 'G'
  | 'N' => 'N' | 'R' => 'Y' | 'Y' => 'R' | 'S' => 'S'
  | 'W' => 'W' | 'K' => 'M' | 'M' => 'K' | 'B' => 'V'
  | 'V' => 'B' | 'D' => 'H' | 'H' => 'D'
  | other => other

/-- `CRISPRDesigner._reverse_complement`: complement of each base of the
upper-cased sequence, read in reverse. -/
def reverseComplement (seq : List Char) : List Char :=
  ((upper seq).reverse).map complementChar

/-- `CRISPRDesigner._calculate_gc_content`: `(#G + #C) / length`, and `0.0`
for the empty sequence. -/
def calculateGcContent (seq : List Char) : ℚ :=
  if seq = [] then 0
  else (((upper seq).count 'G' + (upper seq).count 'C' : Nat) : ℚ) / (seq.length : ℚ)

/-- Substring test on character lists (Python's `pat in s`). -/
def hasSubstring (pat : List Char) : List Char → Bool
  | [] => pat.isEmpty
  | c :: rest => pat.isPrefixOf (c :: rest) || hasSubstring pat rest

/-- `CRISPRDesigner._check_poly_t` with the default `min_run = 4`:
true iff `TTTT` occurs in the upper-cased sequence. -/
def checkPolyT (seq : List Char) : Bool :=
  hasSubstring ['T', 'T', 'T', 'T'] (upper seq)

/-- Loop of `CRISPRDesigner._count_max_repeats`: walk the tail keeping the
current run length and the best run length seen so far. -/
def maxRepeatsAux : List Char → Char → Nat → Nat → Nat
  | [], _, _, best => best
  | c :: rest, prev, cur, best =>
      if c = prev then maxRepeatsAux rest c (cur + 1) (max best (cur + 1))
      else maxRepeatsAux rest c 1 best

/-- `CRISPRDesigner._count_max_repeats`: length of the longest run of a
single repeated character (0 for the empty sequence). -/
def countMaxRepeats (seq : List Char) : Nat :=
  match upper seq with
  | [] => 0
  | c :: rest => maxRepeatsAux rest c 1 1

/-! ## PAM quality (`PAM_QUALITY_SCORES`, `_get_pam_quality`) -/

/-- `PAM_QUALITY_SCORES`: the exact-match PAM quality table. -/
def pamQualityScores : List (List Char × ℚ) :=
  [("NGG".toList, 1.0), ("AGG".toList, 1.0), ("CGG".toList, 1.0),
   ("TGG".toList, 1.0), ("GGG".toList, 1.0),
   ("NNGRRT".toList, 0.9), ("NNGAAT".toList, 0.9), ("NNGAGT".toList, 0.9),
   ("NNGRAT".toList, 0.9), ("NNGART".toList, 0.9),
   ("TTTA".toList, 0.85), ("TTTC".toList, 0.85), ("TTTG".toList, 0.85),
   ("GAA".toList, 0.8), ("GAT".toList, 0.8),
   ("NAG".toList, 0.3), ("AAG".toList, 0.3), ("CAG".toList, 0.3),
   ("TAG".toList, 0.3), ("GAG".toList, 0.3),
   ("NGA".toList, 0.2), ("AGA".toList, 0.2), ("CGA".toList, 0.2),
   ("TGA".toList, 0.2), ("GGA".toList, 0.2)]

/-- `DEFAULT_PAM_QUALITY`. -/
def defaultPamQuality : ℚ := 0.1

/-- Python `s[-2:]`, the last two characters. -/
def lastTwo (s : List Char) : List Char := s.drop (s.length - 2)

/-- `CRISPRDesigner._get_pam_quality`: exact table lookup of the upper-cased
PAM, then suffix rules `GG`/`AG`/`GA` that are only tried when the PAM has
at least 3 characters, and finally the default 0.1. -/
def getPamQuality (pamSeq : List Char) : ℚ :=
  let pamUpper := upper pamSeq
  match pamQualityScores.lookup pamUpper with
  | some q => q
  | none =>
      if 3 ≤ pamUpper.length ∧ lastTwo pamUpper = "GG".toList then 1.0
      else if 3 ≤ pamUpper.length ∧ lastTwo pamUpper = "AG".toList then 0.3
      else if 3 ≤ pamUpper.length ∧ lastTwo pamUpper = "GA".toList then 0.2
      else defaultPamQuality

/-! ## CFD mismatch penalties (`CFD_MISMATCH_PENALTIES`, `_calculate_cfd_score`) -/

/-- `CFD_MISMATCH_PENALTIES` as the literal association list of the source. -/
def cfdMismatchPenalties : List (Nat × ℚ) :=
  [(17, 0.90), (18, 0.90), (19, 0.90), (20, 0.90),
   (13, 0.60), (14, 0.60), (15, 0.60), (16, 0.60),
   (8, 0.40), (9, 0.40), (10, 0.40), (11, 0.40), (12, 0.40),
   (1, 0.20), (2, 0.20), (3, 0.20), (4, 0.20), (5, 0.20), (6, 0.20), (7, 0.20)]

/-- Range-dispatch form of `CFD_MISMATCH_PENALTIES` (the dict's keys are
exactly 1..20, grouped into the four regions named in the source comments);
used so that proofs can reason about an arbitrary position by `omega`. -/
def cfdPenaltyLookup (pos : Nat) : Option ℚ :=
  if 17 ≤ pos ∧ pos ≤ 20 then some 0.90
  else if 13 ≤ pos ∧ pos ≤ 16 then some 0.60
  else if 8 ≤ pos ∧ pos ≤ 12 then some 0.40
  else if 1 ≤ pos ∧ pos ≤ 7 then some 0.20
  else none

/-- One iteration of the `_calculate_cfd_score` loop: multiply by
`1 - penalty` when the position is in the table, else leave unchanged. -/
def cfdStep (score : ℚ) (pos : Nat) : ℚ :=
  match cfdPenaltyLookup pos with
  | some penalty => score * (1 - penalty)
  | none => score

/-- `CRISPRDesigner._calculate_cfd_score`: product of `(1 - penalty)` over
the mismatch positions, floored at 0; an empty mismatch list scores 1.0. -/
def calculateCfdScore (mismatchPositions : List Nat) : ℚ :=
  if mismatchPositions = [] then 1
  else max 0 (mismatchPositions.foldl cfdStep 1)

/-! ## Doench 2016 on-target score
(`DOENCH_POSITION_WEIGHTS`, `_calculate_doench_2016`,
`_calculate_self_complementarity`) -/

/-- `DOENCH_POSITION_WEIGHTS`: position-specific nucleotide weight, with `T`
the 0.0 baseline at every position and, as in the Python
`dict.get(nucleotide, 0)`, weight 0 for any character outside `A`/`C`/`G`
(and for any position outside 1..20, which the scorer never queries). -/
def doenchWeight (pos : Nat) (c : Char) : ℚ :=
  match c with
  | 'A' =>
    match pos with
    | 1 => -0.097377 | 2 => -0.094838 | 3 => -0.070963 | 4 => -0.043544
    | 5 => -0.031856 | 6 => -0.027794 | 7 => -0.009889 | 8 => 0.007820
    | 9 => 0.026284 | 10 => 0.023931 | 11 => 0.036131 | 12 => 0.041276
    | 13 => 0.037258 | 14 => 0.030462 | 15 => 0.024869 | 16 => 0.019399
    | 17 => 0.012968 | 18 => 0.012568 | 19 => 0.006800 | 20 => 0.003281
    | _ => 0
  | 'C' =>
    match pos with
    | 1 => -0.083064 | 2 => -0.088376 | 3 => -0.073336 | 4 => -0.063537
    | 5 => -0.057013 | 6 => -0.046586 | 7 => -0.041686 | 8 => -0.037756
    | 9 => -0.031596 | 10 => -0.029133 | 11 => -0.030821 | 12 => -0.028376
    | 13 => -0.025805 | 14 => -0.023042 | 15 => -0.019596 | 16 => -0.016958
    | 17 => -0.010496 | 18 => -0.007596 | 19 => -0.003890 | 20 => -0.001329
    | _ => 0
  | 'G' =>
    match pos with
    | 1 => 0.031048 | 2 => 0.040169 | 3 => 0.035386 | 4 => 0.032820
    | 5 => 0.028734 | 6 => 0.022672 | 7 => 0.028188 | 8 => 0.021966
    | 9 => 0.023655 | 10 => 0.021836 | 11 => 0.021483 | 12 => 0.027026
    | 13 => 0.030194 | 14 => 0.029692 | 15 => 0.031562 | 16 => 0.024683
    | 17 => 0.018628 | 18 => 0.012902 | 19 => 0.005375 | 20 => -0.025902
    | _ => 0
  | _ => 0

/-- Positional contribution loop of `_calculate_doench_2016`:
`for i, nucleotide in enumerate(guide_seq[:20], 1)` summing the weights. -/
def doenchPositional (guide : List Char) : ℚ :=
  (((guide.take 20).enumFrom 1).map (fun p => doenchWeight p.1 p.2)).sum

/-- `CRISPRDesigner._calculate_self_complementarity`: hairpin-risk penalty
`(matches / 8) * 0.25` comparing the reverse complement of the first 8
bases against the last 8 bases, skipped for sequences shorter than 16. -/
def calculateSelfComplementarity (sequence : List Char) : ℚ :=
  let seq := upper sequence
  if seq.length < 16 then 0
  else
    let first8 := seq.take 8
    let last8 := seq.drop (seq.length - 8)
    let rcFirst8 := reverseComplement first8
    let matchCount := ((rcFirst8.zip last8).filter (fun p => p.1 = p.2)).length
    ((matchCount : ℚ) / 8) * 0.25

/-- `CRISPRDesigner._calculate_doench_2016`: base 0.5, plus positional
weights over the first 20 bases, minus the GC-deviation penalty, minus the
self-complementarity penalty, plus the PAM-quality nudge, clamped to
`[0, 1]`; the empty guide scores 0.0. -/
def calculateDoench2016 (guideSeq pamSeq : List Char) (gcOptimal : ℚ) : ℚ :=
  if guideSeq = [] then 0
  else
    let guide := upper guideSeq
    let score0 := 0.5 + doenchPositional guide
    let gcDeviation := |calculateGcContent guide - gcOptimal|
    let score1 := score0 - gcDeviation * 0.5
    let score2 := score1 - calculateSelfComplementarity guide
    let score3 := score2 + (getPamQuality pamSeq - 0.5) * 0.1
    max 0 (min 1 score3)

/-- Reference computation of claim C1, written from the specification text
of §4.4: start at 0.5; for each of the first 20 spacer positions (1-indexed)
add the fixed position-by-nucleotide weight with `T` as the 0.0 baseline;
subtract `|gc - gc_optimal| * 0.5`; subtract `(matches / 8) * 0.25` where
`matches` counts positional equalities between the reverse complement of
the first 8 bases and the last 8 bases, omitting this term when the spacer
is shorter than 16; add `(pam_quality - 0.5) * 0.1`; clamp into `[0, 1]`.
The empty spacer scores 0.0. -/
def doenchReferenceScore (spacer pamSeq : List Char) (gcOptimal : ℚ) : ℚ :=
  if spacer = [] then 0
  else
    let s := upper spacer
    let positional := ((List.range 20).map (fun i => doenchWeight (i + 1) (s.getD i 'T'))).sum
    let gcPenalty := |calculateGcContent spacer - gcOptimal| * 0.5
    let hairpinPenalty :=
      if spacer.length < 16 then 0
      else
        let matchCount :=
          (((reverseComplement (s.take 8)).zip (s.drop (s.length - 8))).filter
            (fun p => p.1 = p.2)).length
        ((matchCount : ℚ) / 8) * 0.25
    let pamNudge := (getPamQuality pamSeq - 0.5) * 0.1
    max 0 (min 1 (0.5 + positional - gcPenalty - hairpinPenalty + pamNudge))

/-! ## Off-target prediction
(`_distribute_mismatches`, `_generate_mismatched_sequence`,
`_predict_off_target_pam`, `_predict_off_target_location`,
`_classify_off_target_severity`, `_predict_off_targets_cfd`) -/

/-- `OffTarget` dataclass. -/
structure OffTarget where
  sequence : List Char
  chrom : String
  position : Nat
  strand : String
  mismatches : Nat
  mismatch_positions : List Nat
  pam_sequence : List Char
  pam_quality : ℚ
  cfd_score : ℚ
  gene_name : Option String := none
  gene_id : Option String := none
  exon_location : Option String := none
  severity : String := "UNKNOWN"
  deriving DecidableEq

/-- One iteration of the `_distribute_mismatches` loop: the `i`-th mismatch
is drawn from region 1-7, 8-12, 13-16 or 17-20 according to `i`, and
appended unless already present. -/
def distributeStep (seed : Nat) (positions : List Nat) (i : Nat) : List Nat :=
  let pos :=
    if i = 0 then (seed * 3) % 7 + 1
    else if i = 1 then (seed * 5) % 5 + 8
    else if i = 2 then (seed * 7) % 4 + 13
    else (seed * 11) % 4 + 17
  if pos ∈ positions then positions else positions ++ [pos]

/-- `CRISPRDesigner._distribute_mismatches`: deterministic seed-driven
choice of mismatch positions (first in 1-7, second in 8-12, third in 13-16,
any further ones in 17-20), deduplicated, returned sorted ascending. -/
def distributeMismatches (numMismatches seed : Nat) : List Nat :=
  ((List.range numMismatches).foldl (distributeStep seed) []).insertionSort (· ≤ ·)

/-- `CRISPRDesigner._generate_mismatched_sequence`: substitute a
deterministic alternative base at each 1-indexed mismatch position that
falls inside the sequence. -/
def generateMismatchedSequence (guideSeq : List Char) (mismatchPositions : List Nat) : List Char :=
  mismatchPositions.foldl
    (fun seq pos =>
      if 1 ≤ pos ∧ pos ≤ seq.length then
        let idx := pos - 1
        let current := seq.getD idx 'A'
        let alternatives := (['A', 'T', 'G', 'C']).filter (fun b => b ≠ current)
        seq.set idx (alternatives.getD (pos % alternatives.length) current)
      else seq)
    (upper guideSeq)

/-- `CRISPRDesigner._predict_off_target_pam`: cycle through a fixed list of
PAM names. -/
def predictOffTargetPam (index : Nat) : List Char :=
  let pams := ["NGG".toList, "NGG".toList, "NAG".toList,
               "NGG".toList, "NGA".toList, "NGG".toList]
  pams.getD (index % pams.length) []

/-- `CRISPRDesigner._predict_off_target_location` (the `taxid` argument is
unused in the source as well). -/
def predictOffTargetLocation (index : Nat) (_taxid : String) :
    Option String × Option String :=
  if index % 10 = 0 then (some ("GENE" ++ toString index), some "exonic")
  else if index % 3 = 0 then (some ("GENE" ++ toString (index / 3)), some "intronic")
  else (none, some "intergenic")

/-- `CRISPRDesigner._classify_off_target_severity`. -/
def classifyOffTargetSeverity (cfdScore : ℚ) (mismatches : Nat) : String :=
  if cfdScore > 0.5 ∧ mismatches ≤ 2 then "CRITICAL"
  else if cfdScore > 0.3 ∨ mismatches ≤ 2 then "HIGH"
  else if cfdScore > 0.1 ∨ mismatches ≤ 3 then "MEDIUM"
  else "LOW"

/-- Truncation toward zero of a non-negative rational, Python's `int(x)`
for the non-negative values it is applied to here. -/
def ratTruncNat (q : ℚ) : Nat := (q.num / (q.den : Int)).toNat

/-- Candidate-count heuristic of `_predict_off_targets_cfd`:
`base_ot_count = 3 + int(abs(gc - 0.5) * 10) + repeat_count - 2` (always at
least 1, so the `Nat` subtraction is exact). -/
def baseOtCount (guideSeq : List Char) : Nat :=
  3 + ratTruncNat (|calculateGcContent guideSeq - 0.5| * 10) + countMaxRepeats guideSeq - 2

/-- Body of the generation loop of `_predict_off_targets_cfd` at index `i`:
`none` models `continue` (the raw CFD score is below 0.05), `some`
the constructed `OffTarget`. -/
def mkOffTargetCandidate (guideSeq : List Char) (taxid : String)
    (maxMismatches i : Nat) : Option OffTarget :=
  let numMismatches := min (i / 3 + 1) maxMismatches
  let mismatchPositions := distributeMismatches numMismatches i
  let cfdScore := calculateCfdScore mismatchPositions
  if cfdScore < 0.05 then none
  else
    let otSequence := generateMismatchedSequence guideSeq mismatchPositions
    let otPam := predictOffTargetPam i
    let otPamQuality := getPamQuality otPam
    let adjustedCfd := cfdScore * otPamQuality
    let severity := classifyOffTargetSeverity adjustedCfd numMismatches
    let location := predictOffTargetLocation i taxid
    some
      { sequence := otSequence
        chrom := "chr" ++ toString (i % 22 + 1)
        position := 1000000 + i * 10000
        strand := if i % 2 = 0 then "+" else "-"
        mismatches := numMismatches
        mismatch_positions := mismatchPositions
        pam_sequence := otPam
        pam_quality := otPamQuality
        cfd_score := adjustedCfd
        gene_name := location.1
        exon_location := location.2
        severity := severity }

/-- `CRISPRDesigner._predict_off_targets_cfd`: generate
`min(base_ot_count, max_results)` heuristic candidates, drop those whose
raw CFD score is below 0.05, sort stably by descending `cfd_score`, and
truncate to `max_results`. -/
def predictOffTargetsCfd (guideSeq0 : List Char) (taxid : String)
    (maxMismatches maxResults : Nat) : List OffTarget :=
  let guideSeq := upper guideSeq0
  let n := min (baseOtCount guideSeq) maxResults
  let offTargets := (List.range n).filterMap (mkOffTargetCandidate guideSeq taxid maxMismatches)
  (offTargets.insertionSort (fun a b => b.cfd_score ≤ a.cfd_score)).take maxResults

/-! ## Specificity aggregation and severity classification
(`_calculate_specificity_score`, `_classify_severity`,
`_get_safety_recommendation`) -/

/-- Per-item contribution of the severity-penalty loop of
`_calculate_specificity_score`. -/
def severityContribution (severity : String) : ℚ :=
  if severity = "CRITICAL" then 0.15
  else if severity = "HIGH" then 0.08
  else if severity = "MEDIUM" then 0.03
  else 0

/-- `CRISPRDesigner._calculate_specificity_score`: 1.0 for no off-targets,
otherwise `clamp(1 - count_penalty - severity_penalty + pam_bonus, 0, 1)`. -/
def calculateSpecificityScore (offTargets : List OffTarget) (pamQuality : ℚ) : ℚ :=
  if offTargets = [] then 1
  else
    let countPenalty := min 0.4 ((offTargets.length : ℚ) * 0.03)
    let severityPenalty := min 0.5 ((offTargets.map (fun ot => severityContribution ot.severity)).sum)
    let pamBonus := (pamQuality - 0.5) * 0.1
    let specificity := 1 - countPenalty - severityPenalty + pamBonus
    max 0 (min 1 specificity)

/-- `CRISPRDesigner._classify_severity`: first-match-wins rule chain over
the counts of CRITICAL and HIGH off-targets. -/
def classifySeverity (doenchScore : ℚ) (offTargetCount : Nat)
    (hasPathwayConflict : Bool) (offTargets : List OffTarget) : String :=
  let criticalOt := (offTargets.filter (fun ot => ot.severity = "CRITICAL")).length
  let highOt := (offTargets.filter (fun ot => ot.severity = "HIGH")).length
  if hasPathwayConflict = true ∧ criticalOt > 0 then "CRITICAL"
  else if criticalOt > 2 ∨ (highOt > 3 ∧ doenchScore > 0.7) then "CRITICAL"
  else if hasPathwayConflict = true ∨ criticalOt > 0 ∨ highOt > 2 then "HIGH"
  else if offTargetCount > 5 ∨ highOt > 0 then "MEDIUM"
  else "LOW"

/-- Reference decision chain of claim C7, written from the specification
text of §4.8 (counts via `countP`, same first-match-wins order). -/
def severityReference (onTargetScore : ℚ) (offTargetCount : Nat)
    (pathwayConflict : Bool) (offTargets : List OffTarget) : String :=
  let criticalOt := offTargets.countP (fun ot => ot.severity = "CRITICAL")
  let highOt := offTargets.countP (fun ot => ot.severity = "HIGH")
  if pathwayConflict = true ∧ 0 < criticalOt then "CRITICAL"
  else if 2 < criticalOt ∨ (3 < highOt ∧ 0.7 < onTargetScore) then "CRITICAL"
  else if pathwayConflict = true ∨ 0 < criticalOt ∨ 2 < highOt then "HIGH"
  else if 5 < offTargetCount ∨ 0 < highOt then "MEDIUM"
  else "LOW"

/-- `CRISPRDesigner._get_safety_recommendation`. -/
def getSafetyRecommendation (severity : String) : String :=
  if severity = "CRITICAL" then
    "DO NOT USE without extensive validation. Consider CRISPRi, base editing, or alternative target sites. High risk of pathway disruption and off-target effects."
  else if severity = "HIGH" then
    "Use with caution. Recommend comprehensive off-target validation including GUIDE-seq or CIRCLE-seq. Consider heterozygous approach."
  else if severity = "MEDIUM" then
    "Acceptable for most applications. Include standard off-target analysis (T7E1, targeted sequencing) in experimental design."
  else if severity = "LOW" then
    "Safe for use. Minimal off-target concerns. Standard validation recommended."
  else
    "Manual review required. Insufficient data for assessment."

/-! ## Cas types and PAM configurations (`CasType`, `PAMConfig`, `PAM_CONFIGS`) -/

/-- `CasType` enum. -/
inductive CasType where
  | SPCAS9
  | SACAS9
  | CAS12A
  | CAS9_NG
  | XCAS9
  deriving DecidableEq

/-- `CasType.value`, the display string of each enum member. -/
def casTypeValue : CasType → String
  | .SPCAS9 => "SpCas9"
  | .SACAS9 => "SaCas9"
  | .CAS12A => "Cas12a"
  | .CAS9_NG => "Cas9-NG"
  | .XCAS9 => "xCas9"

/-- A PAM regex, embedded structurally: an ordered list of alternatives
(regex `|` branches, tried left to right), each alternative an ordered list
of character classes. All patterns in `PAM_CONFIGS` have this shape. -/
def PamPattern : Type := List (List (List Char))

/-- `PAMConfig` dataclass (the two regex strings are embedded as
`PamPattern`s). -/
structure PAMConfig where
  pattern : PamPattern
  rc_pattern : PamPattern
  quality_score : ℚ
  cas_type : CasType
  spacer_length : Nat
  pam_position : String
  pam_length : Nat

/-- The character class `[ATCG]`. -/
def nClass : List Char := ['A', 'T', 'C', 'G']

/-- `PAM_CONFIGS`: per-Cas constants, with each regex written out as its
alternatives of character classes
(for example SpCas9's `[ATCG]GG` and `CC[ATCG]`, and xCas9's
`([ATCG]G|GA[AT])` and `(C[ATCG]|[AT]TC)`). -/
def pamConfigs : CasType → PAMConfig
  | .SPCAS9 =>
      { pattern := [[nClass, ['G'], ['G']]]
        rc_pattern := [[['C'], ['C'], nClass]]
        quality_score := 1.0
        cas_type := .SPCAS9
        spacer_length := 20
        pam_position := "3prime"
        pam_length := 3 }
  | .SACAS9 =>
      { pattern := [[nClass, nClass, ['G'], ['A', 'G'], ['A', 'G'], ['T']]]
        rc_pattern := [[['A'], ['T', 'C'], ['T', 'C'], ['C'], nClass, nClass]]
        quality_score := 0.9
        cas_type := .SACAS9
        spacer_length := 21
        pam_position := "3prime"
        pam_length := 6 }
  | .CAS12A =>
      { pattern := [[['T'], ['T'], ['T'], ['A', 'C', 'G']]]
        rc_pattern := [[['C', 'G', 'T'], ['A'], ['A'], ['A']]]
        quality_score := 0.85
        cas_type := .CAS12A
        spacer_length := 23
        pam_position := "5prime"
        pam_length := 4 }
  | .CAS9_NG =>
      { pattern := [[nClass, ['G']]]
        rc_pattern := [[['C'], nClass]]
        quality_score := 0.7
        cas_type := .CAS9_NG
        spacer_length := 20
        pam_position := "3prime"
        pam_length := 2 }
  | .XCAS9 =>
      { pattern := [[nClass, ['G']], [['G'], ['A'], ['A', 'T']]]
        rc_pattern := [[['C'], nClass], [['A', 'T'], ['T'], ['C']]]
        quality_score := 0.8
        cas_type := .XCAS9
        spacer_length := 20
        pam_position := "3prime"
        pam_length := 3 }

/-! ## PAM site scanning (`re.finditer`, `_find_pam_sites_both_strands`) -/

/-- Match one alternative (a list of character classes) against a prefix of
`s`, returning the matched characters. -/
def matchClasses : List (List Char) → List Char → Option (List Char)
  | [], _ => some []
  | _ :: _, [] => none
  | cls :: more, c :: rest =>
      if c ∈ cls then (matchClasses more rest).map (fun m => c :: m)
      else none

/-- Match a pattern at the start of `s`: regex alternation tries the
alternatives left to right. -/
def patMatchAt (pat : PamPattern) (s : List Char) : Option (List Char) :=
  match pat with
  | [] => none
  | alt :: more =>
      match matchClasses alt s with
      | some m => some m
      | none => patMatchAt more s

/-- Scanning loop of `re.finditer`: leftmost, non-overlapping matches;
after a match of length `L` scanning resumes `L` characters further (all
PAM patterns match at least one character, so the `max 1` guard against
empty matches never fires). The fuel is the length of the scanned suffix. -/
def findIterAux (pat : PamPattern) : Nat → List Char → Nat → List (Nat × List Char)
  | 0, _, _ => []
  | _ + 1, [], _ => []
  | fuel + 1, c :: rest, pos =>
      match patMatchAt pat (c :: rest) with
      | some m =>
          let len := max 1 m.length
          (pos, m) :: findIterAux pat fuel ((c :: rest).drop len) (pos + len)
      | none => findIterAux pat fuel rest (pos + 1)

/-- `re.finditer(pattern, s)` as a list of `(start, matched_text)`. -/
def findIter (pat : PamPattern) (s : List Char) : List (Nat × List Char) :=
  findIterAux pat s.length s 0

/-- Python slice `s[a:b]` for `0 ≤ a ≤ b` (clamped at the end of `s`). -/
def pySlice (s : List Char) (a b : Nat) : List Char := (s.drop a).take (b - a)

/-- An exon window `(start, end, exon_number)`. -/
structure ExonWindow where
  startPos : Nat
  endPos : Nat
  exonNumber : Nat
  deriving DecidableEq

/-- Search-region selection at the top of `_find_pam_sites_both_strands`:
requested exons if both `target_exons` and `exons` are non-empty, else the
first three exons, else the whole sequence as one window. -/
def searchRegions (sequence : List Char) (exons : List ExonWindow)
    (targetExons : Option (List Nat)) : List ExonWindow :=
  match targetExons with
  | some te =>
      if te ≠ [] ∧ exons ≠ [] then exons.filter (fun e => e.exonNumber ∈ te)
      else if exons ≠ [] then exons.take 3
      else [⟨0, sequence.length, 1⟩]
  | none =>
      if exons ≠ [] then exons.take 3
      else [⟨0, sequence.length, 1⟩]

/-- One PAM hit: `(position, pam_sequence, strand, exon_number)`. -/
structure PamSite where
  position : Nat
  pamSeq : List Char
  strand : String
  exonNumber : Nat
  deriving DecidableEq

/-- Forward-strand arm of the scan loop of `_find_pam_sites_both_strands`
for one region. -/
def forwardSitesInRegion (cfg : PAMConfig) (sequence : List Char)
    (region : ExonWindow) : List PamSite :=
  let regionSeq := pySlice sequence region.startPos region.endPos
  (findIter cfg.pattern regionSeq).filterMap fun hit =>
    let absolutePamPos := region.startPos + hit.1
    if cfg.pam_position = "5prime" then
      if absolutePamPos + hit.2.length + cfg.spacer_length ≤ sequence.length then
        some ⟨absolutePamPos, hit.2, "+", region.exonNumber⟩
      else none
    else
      if cfg.spacer_length ≤ absolutePamPos then
        some ⟨absolutePamPos, hit.2, "+", region.exonNumber⟩
      else none

/-- Reverse-strand arm of the scan loop of `_find_pam_sites_both_strands`
for one region (the stored PAM is the reverse complement of the matched
text). -/
def reverseSitesInRegion (cfg : PAMConfig) (sequence : List Char)
    (region : ExonWindow) : List PamSite :=
  let regionSeq := pySlice sequence region.startPos region.endPos
  (findIter cfg.rc_pattern regionSeq).filterMap fun hit =>
    let pamSeq := reverseComplement hit.2
    let absolutePamPos := region.startPos + hit.1
    if cfg.pam_position = "5prime" then
      if cfg.spacer_length ≤ absolutePamPos then
        some ⟨absolutePamPos, pamSeq, "-", region.exonNumber⟩
      else none
    else
      if absolutePamPos + hit.2.length + cfg.spacer_length ≤ sequence.length then
        some ⟨absolutePamPos, pamSeq, "-", region.exonNumber⟩
      else none

/-- `CRISPRDesigner._find_pam_sites_both_strands`: per region, forward
hits then reverse hits, regions in order. -/
def findPamSitesBothStrands (cfg : PAMConfig) (sequence : List Char)
    (exons : List ExonWindow) (targetExons : Option (List Nat)) : List PamSite :=
  (searchRegions sequence exons targetExons).flatMap fun region =>
    forwardSitesInRegion cfg sequence region ++ reverseSitesInRegion cfg sequence region

/-! ## Guide extraction (`_extract_guide_sequence`) -/

/-- `CRISPRDesigner._extract_guide_sequence`: the spacer adjacent to a PAM
hit, orientation-aware; `[]` (Python `""`) when the window leaves the
sequence bounds. Any strand other than `"+"` takes the reverse branch, as
in the source's `if/else`. -/
def extractGuideSequence (cfg : PAMConfig) (sequence : List Char)
    (pamPos : Nat) (strand : String) : List Char :=
  let spacerLen := cfg.spacer_length
  let pamLen := cfg.pam_length
  if strand = "+" then
    if cfg.pam_position = "5prime" then
      let guideStart := pamPos + pamLen
      let guideEnd := guideStart + spacerLen
      if guideEnd ≤ sequence.length then pySlice sequence guideStart guideEnd
      else []
    else
      if spacerLen ≤ pamPos then pySlice sequence (pamPos - spacerLen) pamPos
      else []
  else
    if cfg.pam_position = "5prime" then
      if spacerLen ≤ pamPos then reverseComplement (pySlice sequence (pamPos - spacerLen) pamPos)
      else []
    else
      let guideStart := pamPos + pamLen
      let guideEnd := guideStart + spacerLen
      if guideEnd ≤ sequence.length then reverseComplement (pySlice sequence guideStart guideEnd)
      else []

/-! ## Annotation helpers (`_determine_exon_position`, `_calculate_cds_frame`,
`_check_pathway_conflicts`) -/

/-- `CRISPRDesigner._determine_exon_position`: relative position of the PAM
inside its exon, bucketed into early/middle/late (note that `not exon_num`
in Python is true for exon number 0 as well as `None`; exon numbers start
at 1, which the embedding keeps as `exonNumber = 0` being falsy). -/
def determineExonPosition (pamPos : Nat) (exons : List ExonWindow)
    (exonNumber : Nat) : Option String :=
  if exonNumber = 0 ∨ exons = [] then none
  else
    match exons.find? (fun e => e.exonNumber = exonNumber) with
    | none => none
    | some e =>
        let exonLen : Int := (e.endPos : Int) - (e.startPos : Int)
        let relPos : ℚ :=
          if 0 < exonLen then ((pamPos : ℚ) - (e.startPos : ℚ)) / (exonLen : ℚ)
          else 0.5
        if relPos < 0.33 then some "early"
        else if relPos < 0.67 then some "middle"
        else some "late"

/-- `CRISPRDesigner._calculate_cds_frame`: reading-frame offset from the
CDS start, `none` when the position precedes it. -/
def calculateCdsFrame (position cdsStart : Nat) : Option Nat :=
  if position < cdsStart then none
  else some ((position - cdsStart) % 3)

/-- Python `str.lower()` over a whole string. -/
def lower (s : List Char) : List Char := s.map Char.toLower

/-- `CRISPRDesigner._check_pathway_conflicts`: the pathway-neighbour set
comes from an external Neo4j collaborator; `none` models the source's
`ImportError`/exception path (collaborator absent, no conflict), `some`
a successful `get_pathway_neighbors` reply. -/
def checkPathwayConflicts (offTargets : List OffTarget)
    (pathwayNeighbors : Option (List String)) : Bool × List String :=
  match pathwayNeighbors with
  | none => (false, [])
  | some neighbors =>
      let neighborsUpper := neighbors.map (fun n => String.mk (upper n.toList))
      let conflictGenes := offTargets.filterMap fun ot =>
        match ot.gene_name with
        | some g =>
            if String.mk (upper g.toList) ∈ neighborsUpper then some g else none
        | none => none
      (decide (0 < conflictGenes.length), conflictGenes)

/-! ## The orchestrator (`CRISPRDesigner.design_guides`, real-sequence path) -/

/-- `GuideRNA` dataclass. -/
structure GuideRNA where
  sequence : List Char
  pam_sequence : List Char
  position : Nat
  strand : String
  cas_type : CasType
  doench_score : ℚ
  specificity_score : ℚ
  off_target_count : Nat
  gc_content : ℚ
  has_poly_t : Bool
  repeat_count : Nat
  pam_quality : ℚ
  exon_number : Option Nat := none
  exon_position : Option String := none
  cds_frame : Option Nat := none
  pathway_conflict : Bool := false
  pathway_conflict_genes : List String := []
  off_targets : List OffTarget := []
  severity_level : String := "UNKNOWN"
  safety_recommendation : String := ""
  deriving DecidableEq

/-- Keyword parameters of `design_guides` with their defaults. -/
structure DesignParams where
  gc_min : ℚ := 0.40
  gc_max : ℚ := 0.70
  gc_optimal : ℚ := 0.55
  avoid_poly_t : Bool := true
  max_repeats : Nat := 4
  min_doench_score : ℚ := 0.3
  max_off_targets : Nat := 50
  include_off_target_details : Bool := true

/-- Body of the per-candidate loop of `design_guides`: `none` models each
`continue` (bad extraction, GC bounds, poly-T, repeats, low Doench score),
`some` the fully annotated `GuideRNA`. -/
def processCandidate (cfg : PAMConfig) (sequence : List Char)
    (exons : List ExonWindow) (cdsStart : Nat) (_geneSymbol taxid : String)
    (pathwayNeighbors : Option (List String)) (params : DesignParams)
    (site : PamSite) : Option GuideRNA :=
  let guideSeq := extractGuideSequence cfg sequence site.position site.strand
  if guideSeq = [] ∨ guideSeq.length ≠ cfg.spacer_length then none
  else
    let gcContent := calculateGcContent guideSeq
    let hasPolyT := if params.avoid_poly_t then checkPolyT guideSeq else false
    let repeatCount := countMaxRepeats guideSeq
    if gcContent < params.gc_min ∨ params.gc_max < gcContent then none
    else if hasPolyT ∧ params.avoid_poly_t then none
    else if params.max_repeats < repeatCount then none
    else
      let doenchScore := calculateDoench2016 guideSeq site.pamSeq params.gc_optimal
      if doenchScore < params.min_doench_score then none
      else
        let pamQuality := getPamQuality site.pamSeq
        let offTargets := predictOffTargetsCfd guideSeq taxid 4 params.max_off_targets
        let offTargetCount := offTargets.length
        let specificityScore := calculateSpecificityScore offTargets pamQuality
        let conflicts := checkPathwayConflicts offTargets pathwayNeighbors
        let exonPosition := determineExonPosition site.position exons site.exonNumber
        let cdsFrame := calculateCdsFrame site.position cdsStart
        let severityLevel := classifySeverity doenchScore offTargetCount conflicts.1 offTargets
        some
          { sequence := guideSeq
            pam_sequence := site.pamSeq
            position := site.position
            strand := site.strand
            cas_type := cfg.cas_type
            doench_score := doenchScore
            specificity_score := specificityScore
            off_target_count := offTargetCount
            gc_content := gcContent
            has_poly_t := hasPolyT
            repeat_count := repeatCount
            pam_quality := pamQuality
            exon_number := some site.exonNumber
            exon_position := exonPosition
            cds_frame := cdsFrame
            pathway_conflict := conflicts.1
            pathway_conflict_genes := conflicts.2
            off_targets := if params.include_off_target_details then offTargets else []
            severity_level := severityLevel
            safety_recommendation := getSafetyRecommendation severityLevel }

/-- Composite ranking key of `design_guides`:
`g.doench_score * g.specificity_score`. -/
def guideSortKey (g : GuideRNA) : ℚ := g.doench_score * g.specificity_score

/-- The candidate guides of the real-sequence path of
`CRISPRDesigner.design_guides`, in discovery order: all PAM sites on both
strands, each processed through the per-candidate filters and scoring. -/
def candidateGuides (cas : CasType) (sequence : List Char)
    (exons : List ExonWindow) (cdsStart : Nat) (targetExons : Option (List Nat))
    (geneSymbol taxid : String) (pathwayNeighbors : Option (List String))
    (params : DesignParams) : List GuideRNA :=
  (findPamSitesBothStrands (pamConfigs cas) sequence exons targetExons).filterMap
    (processCandidate (pamConfigs cas) sequence exons cdsStart geneSymbol taxid
      pathwayNeighbors params)

/-- Real-sequence path of `CRISPRDesigner.design_guides` after the gene
fetch: sort the candidates stably by descending composite score and keep
the top 20 (`guides.sort(key=..., reverse=True)` then `guides[:20]`). -/
def designGuideList (cas : CasType) (sequence : List Char)
    (exons : List ExonWindow) (cdsStart : Nat) (targetExons : Option (List Nat))
    (geneSymbol taxid : String) (pathwayNeighbors : Option (List String))
    (params : DesignParams) : List GuideRNA :=
  (((candidateGuides cas sequence exons cdsStart targetExons geneSymbol taxid
      pathwayNeighbors params).insertionSort
    (fun a b => guideSortKey b ≤ guideSortKey a)).take 20)

/-! ## Serialization (`GuideRNA.to_dict`, `_generate_fallback_guides`) -/

/-- Values of the heterogeneous Python dicts returned by the designer. -/
inductive JValue where
  | jstr : String → JValue
  | jint : Int → JValue
  | jrat : ℚ → JValue
  | jbool : Bool → JValue
  | jnull : JValue
  deriving DecidableEq

/-- Optional `int` dict entry (`None` becomes `null`). -/
def optIntJ : Option Nat → JValue
  | none => JValue.jnull
  | some n => JValue.jint n

/-- Optional `str` dict entry (`None` becomes `null`). -/
def optStrJ : Option String → JValue
  | none => JValue.jnull
  | some s => JValue.jstr s

/-- `GuideRNA.to_dict`: note the `position` entry is the f-string
`f"{position}-{position + len(sequence)}"`, a string, not an integer. -/
def GuideRNA.toDict (g : GuideRNA) : List (String × JValue) :=
  [("seq", JValue.jstr (String.mk g.sequence)),
   ("pam_sequence", JValue.jstr (String.mk g.pam_sequence)),
   ("position", JValue.jstr (toString g.position ++ "-" ++ toString (g.position + g.sequence.length))),
   ("strand", JValue.jstr g.strand),
   ("cas_type", JValue.jstr (casTypeValue g.cas_type)),
   ("doench_score", JValue.jrat g.doench_score),
   ("specificity_score", JValue.jrat g.specificity_score),
   ("off_target_count", JValue.jint g.off_target_count),
   ("gc_content", JValue.jrat g.gc_content),
   ("has_poly_t", JValue.jbool g.has_poly_t),
   ("repeat_count", JValue.jint g.repeat_count),
   ("pam_quality", JValue.jrat g.pam_quality),
   ("exon_number", optIntJ g.exon_number),
   ("exon_position", optStrJ g.exon_position),
   ("cds_frame", optIntJ g.cds_frame),
   ("pathway_conflict", JValue.jbool g.pathway_conflict),
   ("cfd_off_targets", JValue.jint g.off_target_count),
   ("severity_level", JValue.jstr g.severity_level),
   ("safety_recommendation", JValue.jstr g.safety_recommendation)]

/-- The dictionaries returned by the real-sequence path of
`design_guides` (`[g.to_dict() for g in guides[:20]]`). -/
def designGuidesRecords (cas : CasType) (sequence : List Char)
    (exons : List ExonWindow) (cdsStart : Nat) (targetExons : Option (List Nat))
    (geneSymbol taxid : String) (pathwayNeighbors : Option (List String))
    (params : DesignParams) : List (List (String × JValue)) :=
  (designGuideList cas sequence exons cdsStart targetExons geneSymbol taxid
      pathwayNeighbors params).map GuideRNA.toDict

/-- The composite score of a serialized record, read back from its
`doench_score` and `specificity_score` entries (0 if absent, which never
happens for `GuideRNA.to_dict` output). -/
def recordCompositeScore (rec : List (String × JValue)) : ℚ :=
  match rec.lookup "doench_score", rec.lookup "specificity_score" with
  | some (JValue.jrat d), some (JValue.jrat sp) => d * sp
  | _, _ => 0

/-- `CRISPRDesigner._generate_fallback_guides`: the three labelled
placeholder records returned when no real sequence data is available
(their `position` entries are also formatted strings). -/
def generateFallbackGuides (cas : CasType) (geneSymbol : String) :
    List (List (String × JValue)) :=
  (List.range 3).map fun (i : Nat) =>
    [("seq", JValue.jstr ("PLACEHOLDER_GUIDE_" ++ toString (i + 1) ++ "_FOR_" ++ geneSymbol)),
     ("pam_sequence", JValue.jstr "NGG"),
     ("position", JValue.jstr (toString (i * 100) ++ "-" ++ toString (i * 100 + 20))),
     ("strand", JValue.jstr "+"),
     ("cas_type", JValue.jstr (casTypeValue cas)),
     ("doench_score", JValue.jrat (0.7 - (i : ℚ) * 0.1)),
     ("specificity_score", JValue.jrat (0.8 - (i : ℚ) * 0.1)),
     ("off_target_count", JValue.jint ((i : Int) + 1)),
     ("gc_content", JValue.jrat 0.55),
     ("has_poly_t", JValue.jbool false),
     ("repeat_count", JValue.jint 2),
     ("pam_quality", JValue.jrat 1.0),
     ("exon_number", JValue.jint ((i : Int) + 1)),
     ("exon_position", JValue.jstr "early"),
     ("cds_frame", JValue.jint 0),
     ("pathway_conflict", JValue.jbool false),
     ("cfd_off_targets", JValue.jint ((i : Int) + 1)),
     ("severity_level", JValue.jstr "MEDIUM"),
     ("safety_recommendation", JValue.jstr "Sequence data unavailable - validate experimentally")]

/-! ## Top-level entry point (`design_guides` module function) -/

/-- `cas_type_map` of the module-level `design_guides`. -/
def casTypeMap : List (String × CasType) :=
  [("spcas9", CasType.SPCAS9),
   ("sacas9", CasType.SACAS9),
   ("cas12a", CasType.CAS12A),
   ("cas9-ng", CasType.CAS9_NG),
   ("xcas9", CasType.XCAS9)]

/-- String-to-CasType conversion at the entry of the module-level
`design_guides`: `cas_type_map.get(cas_type.lower(), CasType.SPCAS9)` —
an unrecognized name falls back to SpCas9 rather than raising. -/
def resolveCasType (casType : String) : CasType :=
  (casTypeMap.lookup (String.mk (lower casType.toList))).getD CasType.SPCAS9

/-- A concrete off-target record used by witness theorems. -/
def otExample (sev : String) : OffTarget :=
  { sequence := "ACGTACGTACGTACGTACGT".toList
    chrom := "chr1"
    position := 1000000
    strand := "+"
    mismatches := 1
    mismatch_positions := [3]
    pam_sequence := "NGG".toList
    pam_quality := 1
    cfd_score := 0.8
    severity := sev }

/-- A concrete guide record used by counterexample/witness theorems. -/
def gExample : GuideRNA :=
  { sequence := "GAGTCCGAGCAGAAGAAGAA".toList
    pam_sequence := "AGG".toList
    position := 1000000
    strand := "+"
    cas_type := CasType.SPCAS9
    doench_score := 0.5
    specificity_score := 1
    off_target_count := 0
    gc_content := 0.5
    has_poly_t := false
    repeat_count := 2
    pam_quality := 1 }

/-! ## Helper lemmas -/

/-- Sanity check: the range-dispatch form of the CFD table agrees with the
literal association list on every position at which either is defined. -/
theorem cfdPenaltyLookup_eq_table : ∀ pos < 32,
    cfdPenaltyLookup pos = cfdMismatchPenalties.lookup pos := by
  intro pos h
  interval_cases pos <;> rfl

theorem charOfNat_toNat (n : Nat) (h : n < 128) : (Char.ofNat n).toNat = n := by
  have hv : n < 55296 ∨ 57343 < n ∧ n < 1114112 := Or.inl (by omega)
  simp [Char.ofNat, Char.toNat, hv, Char.ofNatAux, UInt32.toNat, BitVec.toNat_ofNatLt]

/-- ASCII `upper` is idempotent on characters. -/
theorem upChar_idem (c : Char) : upChar (upChar c) = upChar c := by
  unfold upChar Char.toUpper
  simp only []
  by_cases h : c.toNat ≥ 97 ∧ c.toNat ≤ 122
  · rw [if_pos h, if_neg]
    rw [charOfNat_toNat (c.toNat - 32) (by omega)]
    omega
  · rw [if_neg h, if_neg h]

/-- `upper` is idempotent on strings. -/
theorem upper_upper (s : List Char) : upper (upper s) = upper s := by
  unfold upper
  rw [List.map_map]
  exact List.map_congr_left fun c _ => upChar_idem c

theorem length_upper (s : List Char) : (upper s).length = s.length :=
  List.length_map s upChar

theorem upper_eq_nil_iff (s : List Char) : upper s = [] ↔ s = [] := by
  unfold upper
  exact List.map_eq_nil_iff

/-- GC content only depends on the upper-cased sequence. -/
theorem calculateGcContent_upper (s : List Char) :
    calculateGcContent (upper s) = calculateGcContent s := by
  unfold calculateGcContent
  rw [upper_upper, length_upper]
  simp only [upper_eq_nil_iff]

/-- A successful association-list lookup returns one of the stored values. -/
theorem lookup_mem_snd {α β : Type} [BEq α] :
    ∀ (l : List (α × β)) (k : α) (v : β),
      l.lookup k = some v → v ∈ l.map Prod.snd := by
  intro l
  induction l with
  | nil => intro k v h; simp [List.lookup] at h
  | cons kv rest ih =>
      intro k v h
      rw [List.lookup] at h
      split at h
      · injection h with h2
        rw [List.map_cons]
        exact h2 ▸ List.mem_cons_self _ _
      · rw [List.map_cons]
        exact List.mem_cons_of_mem _ (ih k v h)

/-- Every value stored in `PAM_QUALITY_SCORES` is one of the seven
documented quality levels. -/
theorem pamQualityScores_values (k : List Char) (v : ℚ)
    (h : pamQualityScores.lookup k = some v) :
    v = 1.0 ∨ v = 0.9 ∨ v = 0.85 ∨ v = 0.8 ∨ v = 0.3 ∨ v = 0.2 ∨ v = 0.1 := by
  have hmem := lookup_mem_snd pamQualityScores k v h
  simp only [pamQualityScores, List.map_cons, List.map_nil, List.mem_cons,
    List.not_mem_nil, or_false] at hmem
  tauto

/-- Multiplicativity of the CFD loop step in its accumulator. -/
theorem cfdStep_mul (a : ℚ) (pos : Nat) : cfdStep a pos = a * cfdStep 1 pos := by
  unfold cfdStep
  cases cfdPenaltyLookup pos with
  | none => ring
  | some penalty => ring

/-- Each CFD factor is positive. -/
theorem cfdStep_one_pos (pos : Nat) : 0 < cfdStep 1 pos := by
  unfold cfdStep cfdPenaltyLookup
  split_ifs <;> norm_num

/-- Each CFD factor of a tabulated position (1..20) is strictly below 1. -/
theorem cfdStep_one_lt_one (pos : Nat) (h1 : 1 ≤ pos) (h2 : pos ≤ 20) :
    cfdStep 1 pos < 1 := by
  unfold cfdStep cfdPenaltyLookup
  split_ifs with ha hb hc hd
  · norm_num
  · norm_num
  · norm_num
  · norm_num
  · omega

/-- The CFD fold factors out of its accumulator. -/
theorem foldl_cfdStep_mul (l : List Nat) (a : ℚ) :
    l.foldl cfdStep a = a * l.foldl cfdStep 1 := by
  induction l generalizing a with
  | nil => simp
  | cons p rest ih =>
      simp only [List.foldl_cons]
      rw [ih (cfdStep a p), ih (cfdStep 1 p), cfdStep_mul a p]
      ring

/-- The CFD fold is positive: a product of positive factors. -/
theorem foldl_cfdStep_pos (l : List Nat) : 0 < l.foldl cfdStep 1 := by
  induction l with
  | nil => norm_num
  | cons p rest ih =>
      simp only [List.foldl_cons]
      rw [foldl_cfdStep_mul]
      exact mul_pos (cfdStep_one_pos p) ih

/-- The CFD score is always strictly positive: the 0 floor of
`_calculate_cfd_score` is never attained. -/
theorem calculateCfdScore_pos (l : List Nat) : 0 < calculateCfdScore l := by
  unfold calculateCfdScore
  split_ifs with h
  · norm_num
  · exact lt_max_of_lt_right (foldl_cfdStep_pos l)

/-- On a non-empty position list the floor drops away. -/
theorem calculateCfdScore_of_ne_nil (l : List Nat) (h : l ≠ []) :
    calculateCfdScore l = l.foldl cfdStep 1 := by
  unfold calculateCfdScore
  rw [if_neg h]
  exact max_eq_right (le_of_lt (foldl_cfdStep_pos l))

/-! ## Claim C3 -/

/-- Claim C3, counterexample: the claim asserts that any no-exact-match PAM
ending in `GG` scores 1.0, including strings shorter than 3 characters; but
`_get_pam_quality("GG")` takes none of the suffix rules (they require
length at least 3) and returns the default 0.1. -/
theorem getPamQuality_short_gg_cex :
    getPamQuality ("GG".toList) = 0.1 ∧
      pamQualityScores.lookup (upper ("GG".toList)) = none ∧
      (0.1 : ℚ) ≠ 1.0 := by
  refine ⟨rfl, rfl, by norm_num⟩

/-- Claim C3, amended: for a PAM with no exact table match the suffix rules
`GG` (1.0), `AG` (0.3), `GA` (0.2) apply in priority order, but only when
the PAM has at least 3 characters; any shorter no-match string gets the
default 0.1. The function is total, and always returns one of the seven
documented values. -/
theorem getPamQuality_fallback :
    (∀ p : List Char, pamQualityScores.lookup (upper p) = none →
      getPamQuality p =
        (if 3 ≤ p.length ∧ lastTwo (upper p) = "GG".toList then 1.0
         else if 3 ≤ p.length ∧ lastTwo (upper p) = "AG".toList then 0.3
         else if 3 ≤ p.length ∧ lastTwo (upper p) = "GA".toList then 0.2
         else 0.1)) ∧
    (∀ p : List Char,
      getPamQuality p = 1.0 ∨ getPamQuality p = 0.9 ∨ getPamQuality p = 0.85 ∨
      getPamQuality p = 0.8 ∨ getPamQuality p = 0.3 ∨ getPamQuality p = 0.2 ∨
      getPamQuality p = 0.1) := by
  constructor
  · intro p h
    simp only [getPamQuality, h, length_upper, defaultPamQuality]
  · intro p
    simp only [getPamQuality]
    cases h : pamQualityScores.lookup (upper p) with
    | some q =>
        simpa using pamQualityScores_values (upper p) q h
    | none =>
        simp only [defaultPamQuality]
        split_ifs <;> tauto

/-- Claim C3, witness for the amended theorem: `TTAG` has no exact match,
has length at least 3, ends in `AG`, and scores 0.3. -/
theorem getPamQuality_fallback_witness :
    pamQualityScores.lookup (upper ("TTAG".toList)) = none ∧
      getPamQuality ("TTAG".toList) = 0.3 := by
  constructor
  · rfl
  · rw [getPamQuality_fallback.1 ("TTAG".toList) rfl]
    rfl

/-! ## Claim C8 -/

/-- Claim C8, counterexample: the claim quantifies over every position `p`
not in the mismatch set, but `_calculate_cfd_score` applies no penalty to a
position outside the table's range 1..20: adding a mismatch at position 21
leaves the score at 1.0, which neither strictly decreases the score nor
leaves both scores at the 0 floor. -/
theorem calculateCfdScore_punctured_cex :
    calculateCfdScore [21] = 1.0 ∧ calculateCfdScore [] = 1.0 ∧
      ¬ (calculateCfdScore [21] < calculateCfdScore [] ∨
         (calculateCfdScore [21] = 0 ∧ calculateCfdScore [] = 0)) := by
  have h21 : calculateCfdScore [21] = 1.0 := by
    norm_num [calculateCfdScore, cfdStep, cfdPenaltyLookup]
  have h0 : calculateCfdScore [] = 1.0 := by
    norm_num [calculateCfdScore]
  refine ⟨h21, h0, ?_⟩
  rw [h21, h0]
  norm_num

/-- Claim C8, amended: for a mismatch position `p` inside the penalty
table's range 1..20 and not already in `M`, adding `p` strictly decreases
the CFD score; the 0-floor equality case never occurs because the score is
a product of positive factors. -/
theorem calculateCfdScore_strict_anti (M : List Nat) (p : Nat)
    (_hp : p ∉ M) (h1 : 1 ≤ p) (h2 : p ≤ 20) :
    calculateCfdScore (p :: M) < calculateCfdScore M := by
  have hfac := cfdStep_one_lt_one p h1 h2
  rw [calculateCfdScore_of_ne_nil (p :: M) (by simp)]
  simp only [List.foldl_cons]
  rw [foldl_cfdStep_mul, cfdStep_mul 1 p, one_mul]
  cases M with
  | nil =>
      simp only [List.foldl_nil, mul_one]
      simpa [calculateCfdScore] using hfac
  | cons q rest =>
      rw [calculateCfdScore_of_ne_nil (q :: rest) (by simp)]
      exact mul_lt_of_lt_one_left (foldl_cfdStep_pos (q :: rest)) hfac

/-- Claim C8, witness: position 19 is not in `[3]`, and adding it strictly
decreases the CFD score. -/
theorem calculateCfdScore_strict_anti_witness :
    (19 : Nat) ∉ [3] ∧ calculateCfdScore (19 :: [3]) < calculateCfdScore [3] :=
  ⟨by decide, calculateCfdScore_strict_anti [3] 19 (by decide) (by decide) (by decide)⟩

/-! ## Claim C6 -/

/-- Claim C6: `_calculate_specificity_score` returns exactly 1 on an empty
off-target list; on a non-empty list it returns
`clamp(1 - min(0.4, n * 0.03) - min(0.5, S) + (pam_quality - 0.5) * 0.1, 0, 1)`
where `n` is the list length and `S` sums 0.15 per CRITICAL, 0.08 per HIGH,
0.03 per MEDIUM and 0 per LOW (or other) item. -/
theorem calculateSpecificityScore_spec :
    (∀ q : ℚ, calculateSpecificityScore [] q = 1) ∧
    (∀ (ots : List OffTarget) (q : ℚ), ots ≠ [] →
      calculateSpecificityScore ots q =
        max 0 (min 1 (1 - min 0.4 ((ots.length : ℚ) * 0.03)
          - min 0.5 ((ots.map (fun ot =>
              if ot.severity = "CRITICAL" then 0.15
              else if ot.severity = "HIGH" then 0.08
              else if ot.severity = "MEDIUM" then 0.03 else 0)).sum)
          + (q - 0.5) * 0.1))) := by
  constructor
  · intro q
    rfl
  · intro ots q h
    simp only [calculateSpecificityScore, if_neg h, severityContribution]

/-- Claim C6, witness: one HIGH off-target with PAM quality 0.3 scores
`1 - 0.03 - 0.08 + (0.3 - 0.5) * 0.1 = 0.87`. -/
theorem calculateSpecificityScore_spec_witness :
    ([otExample "HIGH"] ≠ ([] : List OffTarget)) ∧
      calculateSpecificityScore [otExample "HIGH"] 0.3 = 0.87 := by
  refine ⟨by simp, ?_⟩
  rw [calculateSpecificityScore_spec.2 [otExample "HIGH"] 0.3 (by simp)]
  simp only [List.map_cons, List.map_nil, List.sum_cons, List.sum_nil,
    List.length_cons, List.length_nil]
  rw [show (otExample "HIGH").severity = "HIGH" from rfl]
  rw [if_neg (by decide : ¬("HIGH" : String) = "CRITICAL"),
    if_pos (rfl : ("HIGH" : String) = "HIGH")]
  norm_num

/-! ## Claim C7 -/

/-- Claim C7: `_classify_severity` implements the specified
first-match-wins decision chain over the CRITICAL/HIGH off-target counts,
and in particular classifies `(0.8, 0, False, [])` as LOW. -/
theorem classifySeverity_spec :
    (∀ (d : ℚ) (c : Nat) (p : Bool) (ots : List OffTarget),
      classifySeverity d c p ots = severityReference d c p ots) ∧
    classifySeverity 0.8 0 false [] = "LOW" := by
  constructor
  · intro d c p ots
    simp only [classifySeverity, severityReference, List.countP_eq_length_filter,
      gt_iff_lt]
  · rfl

/-! ## Claim C1 -/

/-- The `T` column of the Doench table is the zero baseline at every
position, including positions beyond the spacer. -/
theorem doenchWeight_T (pos : Nat) : doenchWeight pos 'T' = 0 := rfl

/-- The enumerate-based positional sum of the scorer equals an index-based
sum over the first `n` positions (padding with the baseline `T`). -/
theorem enumFrom_weight_sum (l : List Char) :
    ∀ (n k : Nat),
      (((l.take n).enumFrom k).map (fun p => doenchWeight p.1 p.2)).sum =
        ((List.range n).map (fun i => doenchWeight (k + i) (l.getD i 'T'))).sum := by
  induction l with
  | nil =>
      intro n k
      simp only [List.take_nil, List.enumFrom, List.map_nil, List.sum_nil]
      rw [List.sum_eq_zero]
      intro x hx
      simp only [List.mem_map] at hx
      obtain ⟨i, _, hi⟩ := hx
      rw [← hi]
      simp [List.getD, doenchWeight_T]
  | cons c rest ih =>
      intro n k
      cases n with
      | zero => simp
      | succ m =>
          simp only [List.take_succ_cons, List.enumFrom, List.map_cons, List.sum_cons]
          rw [ih m (k + 1)]
          rw [List.range_succ_eq_map, List.map_cons, List.sum_cons, List.map_map]
          simp only [List.getD_cons_zero, Nat.add_zero]
          congr 1
          refine congrArg List.sum (List.map_congr_left fun i _ => ?_)
          simp only [Function.comp_apply, List.getD_cons_succ]
          have heq : k + 1 + i = k + Nat.succ i := by omega
          rw [heq]

/-- `doenchPositional` as an index-based sum over positions 1..20. -/
theorem doenchPositional_eq (l : List Char) :
    doenchPositional l =
      ((List.range 20).map (fun i => doenchWeight (i + 1) (l.getD i 'T'))).sum := by
  unfold doenchPositional
  rw [enumFrom_weight_sum l 20 1]
  refine congrArg List.sum (List.map_congr_left fun i _ => ?_)
  have heq : 1 + i = i + 1 := by omega
  rw [heq]

/-- Claim C1: for every spacer and PAM, `_calculate_doench_2016` computes
exactly the reference score of the specification (base 0.5, the 20
positional weights with `T` as baseline, the GC-deviation penalty, the
self-complementarity penalty skipped below length 16, the PAM-quality
nudge, clamped to `[0, 1]`), and the empty spacer scores 0. -/
theorem calculateDoench2016_matches_reference :
    (∀ (spacer pamSeq : List Char) (gcOptimal : ℚ),
      calculateDoench2016 spacer pamSeq gcOptimal =
        doenchReferenceScore spacer pamSeq gcOptimal) ∧
    (∀ (pamSeq : List Char) (gcOptimal : ℚ),
      calculateDoench2016 [] pamSeq gcOptimal = 0) := by
  constructor
  · intro spacer pamSeq gcOptimal
    unfold calculateDoench2016 doenchReferenceScore calculateSelfComplementarity
    by_cases h : spacer = []
    · rw [if_pos h, if_pos h]
    · rw [if_neg h, if_neg h]
      simp only [upper_upper, length_upper, calculateGcContent_upper,
        doenchPositional_eq]
  · intro pamSeq gcOptimal
    rfl

/-! ## Claim C10 -/

theorem pySlice_length (s : List Char) (a b : Nat) :
    (pySlice s a b).length = min (b - a) (s.length - a) := by
  unfold pySlice
  rw [List.length_take, List.length_drop]

theorem length_reverseComplement (s : List Char) :
    (reverseComplement s).length = s.length := by
  unfold reverseComplement
  rw [List.length_map, List.length_reverse, length_upper]

/-- For any PAM configuration, the extractor returns the empty string or an
exact-spacer-length string whenever the PAM position lies inside the
sequence. -/
theorem extractGuideSequence_nil_or_spacer (cfg : PAMConfig) (s : List Char)
    (p : Nat) (strand : String) (hp : p ≤ s.length) :
    extractGuideSequence cfg s p strand = [] ∨
      (extractGuideSequence cfg s p strand).length = cfg.spacer_length := by
  simp only [extractGuideSequence]
  split_ifs with h1 h2 h3 h4 h5 h6 <;>
    first
      | exact Or.inl rfl
      | (right; rw [pySlice_length]; omega)
      | (right; rw [length_reverseComplement, pySlice_length]; omega)

/-- Claim C10: under `p ≤ len(s)`, `_extract_guide_sequence` returns either
the empty string or a spacer of exactly the configured length for the
active Cas type, and that configured length is 20, 21 or 23. -/
theorem extractGuideSequence_total_length (cas : CasType) (s : List Char)
    (p : Nat) (strand : String) (hp : p ≤ s.length) :
    (extractGuideSequence (pamConfigs cas) s p strand = [] ∨
      (extractGuideSequence (pamConfigs cas) s p strand).length =
        (pamConfigs cas).spacer_length) ∧
    ((pamConfigs cas).spacer_length = 20 ∨ (pamConfigs cas).spacer_length = 21 ∨
      (pamConfigs cas).spacer_length = 23) := by
  refine ⟨extractGuideSequence_nil_or_spacer (pamConfigs cas) s p strand hp, ?_⟩
  cases cas <;> simp [pamConfigs]

/-- Claim C10, witness: SpCas9 extraction at position 22 of a 25-nt
sequence. -/
theorem extractGuideSequence_total_length_witness :
    (22 : Nat) ≤ ("ACGTACGTACGTACGTACGTACGTA".toList).length ∧
      (extractGuideSequence (pamConfigs CasType.SPCAS9)
          ("ACGTACGTACGTACGTACGTACGTA".toList) 22 "+" = [] ∨
        (extractGuideSequence (pamConfigs CasType.SPCAS9)
            ("ACGTACGTACGTACGTACGTACGTA".toList) 22 "+").length =
          (pamConfigs CasType.SPCAS9).spacer_length) :=
  ⟨by decide,
    (extractGuideSequence_total_length CasType.SPCAS9
      ("ACGTACGTACGTACGTACGTACGTA".toList) 22 "+" (by decide)).1⟩

/-! ## Claim C4 -/

/-- Claim C4, counterexample: the module-level `design_guides` does not
fail fast on an unsupported Cas-type string; `"cas13"` is not in the
conversion map, yet it is silently resolved to SpCas9. -/
theorem resolveCasType_unknown_cex :
    resolveCasType "cas13" = CasType.SPCAS9 ∧
      casTypeMap.lookup (String.mk (lower ("cas13".toList))) = none := by
  constructor
  · rfl
  · rfl

/-- Claim C4, amended: every cas-type string whose lower-casing is not in
`cas_type_map` is silently substituted by the default SpCas9 (no error is
raised), while the five recognized names (case-insensitively) resolve to
their own Cas type. -/
theorem resolveCasType_default :
    (∀ s : String, casTypeMap.lookup (String.mk (lower s.toList)) = none →
      resolveCasType s = CasType.SPCAS9) ∧
      resolveCasType "SpCas9" = CasType.SPCAS9 ∧
      resolveCasType "SaCas9" = CasType.SACAS9 ∧
      resolveCasType "Cas12a" = CasType.CAS12A ∧
      resolveCasType "Cas9-NG" = CasType.CAS9_NG ∧
      resolveCasType "xCas9" = CasType.XCAS9 := by
  refine ⟨?_, rfl, rfl, rfl, rfl, rfl⟩
  intro s h
  unfold resolveCasType
  rw [h]
  rfl

/-- Claim C4, witness: `"Cas14"` is unmapped and resolves to SpCas9. -/
theorem resolveCasType_default_witness :
    casTypeMap.lookup (String.mk (lower ("Cas14".toList))) = none ∧
      resolveCasType "Cas14" = CasType.SPCAS9 :=
  ⟨rfl, resolveCasType_default.1 "Cas14" rfl⟩

/-! ## Claim C9 -/

/-- Claim C9, counterexample: the `position` entry of a serialized guide
record is the formatted string `"start-end"`, not the integer position —
both for `GuideRNA.to_dict` output and for the fallback records that
`design_guides` returns when sequence data is unavailable. -/
theorem guide_position_serialized_as_string_cex :
    (GuideRNA.toDict gExample).lookup "position" =
        some (JValue.jstr "1000000-1000020") ∧
      JValue.jstr "1000000-1000020" ≠ JValue.jint 1000000 ∧
      ((generateFallbackGuides CasType.SPCAS9 "TP53").headD []).lookup "position" =
        some (JValue.jstr "0-20") := by
  refine ⟨rfl, by decide, rfl⟩

/-- Claim C9, amended: every serialized guide record carries its `position`
entry as the string `"{position}-{position + len(sequence)}"` (the other
fields of the §3 field set are present under their documented keys). -/
theorem toDict_position_is_range_string (g : GuideRNA) :
    (GuideRNA.toDict g).lookup "position" =
      some (JValue.jstr (toString g.position ++ "-" ++
        toString (g.position + g.sequence.length))) ∧
    (GuideRNA.toDict g).map Prod.fst =
      ["seq", "pam_sequence", "position", "strand", "cas_type", "doench_score",
       "specificity_score", "off_target_count", "gc_content", "has_poly_t",
       "repeat_count", "pam_quality", "exon_number", "exon_position",
       "cds_frame", "pathway_conflict", "cfd_off_targets", "severity_level",
       "safety_recommendation"] := by
  constructor
  · rfl
  · rfl

/-! ## Claim C2 -/

theorem baseOtCount_AAAAA : baseOtCount (upper ("AAAAA".toList)) = 11 := by
  have hup : upper ("AAAAA".toList) = "AAAAA".toList := rfl
  rw [hup]
  unfold baseOtCount
  have hgc : calculateGcContent ("AAAAA".toList) = 0 := by
    unfold calculateGcContent
    rw [if_neg (by decide : ¬("AAAAA".toList = ([] : List Char)))]
    rw [show (upper ("AAAAA".toList)).count 'G' + (upper ("AAAAA".toList)).count 'C' = 0
      from by decide]
    norm_num
  rw [hgc]
  have habs : (|(0 : ℚ) - 0.5| * 10) = 5 := by
    rw [abs_sub_comm, sub_zero, abs_of_nonneg (by norm_num : (0 : ℚ) ≤ 0.5)]
    norm_num
  rw [habs]
  have htr : ratTruncNat 5 = 5 := by
    unfold ratTruncNat
    rw [Rat.num_ofNat, Rat.den_ofNat]
    decide
  rw [htr, show countMaxRepeats ("AAAAA".toList) = 5 from by decide]

theorem cfd_three_mismatches : calculateCfdScore [3, 8, 15] = 0.192 := by
  unfold calculateCfdScore
  rw [if_neg (by decide : ¬([3, 8, 15] : List Nat) = [])]
  norm_num [cfdStep, cfdPenaltyLookup, List.foldl]

/-- Claim C2, counterexample: with `max_mismatches = 3` and the spacer
`AAAAA` (11 synthesized candidates), candidate 10 has raw CFD 0.192 (which
passes the filter, applied to the raw CFD only) but PAM `NGA` of quality
0.2, so its final stored score is `0.192 * 0.2 = 0.0384 < 0.05` — a
candidate with final score below 0.05 is returned, not discarded. -/
theorem predictOffTargetsCfd_low_final_cex :
    (predictOffTargetsCfd ("AAAAA".toList) "10090" 3 50).any
      (fun ot => decide (ot.cfd_score < 0.05)) = true := by
  have hdm : distributeMismatches (min (10 / 3 + 1) 3) 10 = [3, 8, 15] := by decide
  have hpam : getPamQuality (predictOffTargetPam 10) = 0.2 := rfl
  have hraw : ¬ (calculateCfdScore (distributeMismatches (min (10 / 3 + 1) 3) 10) < 0.05) := by
    rw [hdm, cfd_three_mismatches]
    norm_num
  cases hE : mkOffTargetCandidate (upper ("AAAAA".toList)) "10090" 3 10 with
  | none =>
      exfalso
      simp only [mkOffTargetCandidate] at hE
      rw [if_neg hraw] at hE
      simp at hE
  | some r =>
      have hlt : r.cfd_score < 0.05 := by
        simp only [mkOffTargetCandidate] at hE
        rw [if_neg hraw] at hE
        injection hE with hE
        rw [← hE]
        show calculateCfdScore (distributeMismatches (min (10 / 3 + 1) 3) 10) *
          getPamQuality (predictOffTargetPam 10) < 0.05
        rw [hdm, cfd_three_mismatches, hpam]
        norm_num
      have hmem : r ∈ (List.range (min (baseOtCount (upper ("AAAAA".toList))) 50)).filterMap
          (mkOffTargetCandidate (upper ("AAAAA".toList)) "10090" 3) :=
        List.mem_filterMap.mpr ⟨10, by rw [baseOtCount_AAAAA]; decide, hE⟩
      rw [List.any_eq_true]
      refine ⟨r, ?_, decide_eq_true hlt⟩
      simp only [predictOffTargetsCfd]
      have hperm := List.perm_insertionSort
        (fun a b : OffTarget => b.cfd_score ≤ a.cfd_score)
        ((List.range (min (baseOtCount (upper ("AAAAA".toList))) 50)).filterMap
          (mkOffTargetCandidate (upper ("AAAAA".toList)) "10090" 3))
      have hlen : ((List.range (min (baseOtCount (upper ("AAAAA".toList))) 50)).filterMap
          (mkOffTargetCandidate (upper ("AAAAA".toList)) "10090" 3)).length ≤ 50 := by
        calc ((List.range (min (baseOtCount (upper ("AAAAA".toList))) 50)).filterMap
            (mkOffTargetCandidate (upper ("AAAAA".toList)) "10090" 3)).length
            ≤ (List.range (min (baseOtCount (upper ("AAAAA".toList))) 50)).length :=
              List.length_filterMap_le _ _
          _ ≤ 50 := by rw [List.length_range]; omega
      rw [List.take_of_length_le (by rw [List.length_insertionSort]; exact hlen)]
      exact hperm.mem_iff.mpr hmem

/-- For any seed, the four-mismatch pattern drawn by
`_distribute_mismatches` hits each penalty region once, so its raw CFD is
`0.8 * 0.6 * 0.4 * 0.1 = 0.0192` — always below the 0.05 cut-off. -/
theorem distributeMismatches_four_cfd (seed : Nat) :
    calculateCfdScore (distributeMismatches 4 seed) = 0.0192 := by
  have hb0 : (seed * 3) % 7 < 7 := Nat.mod_lt _ (by norm_num)
  have hb1 : (seed * 5) % 5 < 5 := Nat.mod_lt _ (by norm_num)
  have hb2 : (seed * 7) % 4 < 4 := Nat.mod_lt _ (by norm_num)
  have hb3 : (seed * 11) % 4 < 4 := Nat.mod_lt _ (by norm_num)
  set p0 := (seed * 3) % 7 + 1 with hp0
  set p1 := (seed * 5) % 5 + 8 with hp1
  set p2 := (seed * 7) % 4 + 13 with hp2
  set p3 := (seed * 11) % 4 + 17 with hp3
  have hp1c : p1 = 8 := by rw [hp1, Nat.mul_mod_left]
  have h0 : distributeStep seed [] 0 = [p0] := by
    simp [distributeStep]
  have h1 : distributeStep seed [p0] 1 = [p0, p1] := by
    simp only [distributeStep]
    norm_num
    rw [hp1c, if_neg (by omega)]
  have h2 : distributeStep seed [p0, p1] 2 = [p0, p1, p2] := by
    simp only [distributeStep]
    norm_num
    constructor <;> omega
  have h3 : distributeStep seed [p0, p1, p2] 3 = [p0, p1, p2, p3] := by
    simp only [distributeStep]
    norm_num
    refine ⟨by omega, by omega, by omega⟩
  have hfold : (List.range 4).foldl (distributeStep seed) [] = [p0, p1, p2, p3] := by
    rw [show List.range 4 = [0, 1, 2, 3] from rfl]
    simp only [List.foldl_cons, List.foldl_nil]
    rw [h0, h1, h2, h3]
  have hsorted : List.Sorted (· ≤ ·) [p0, p1, p2, p3] := by
    refine List.Pairwise.cons (fun b hb => ?_)
      (List.Pairwise.cons (fun b hb => ?_)
        (List.Pairwise.cons (fun b hb => ?_) (List.pairwise_singleton _ _)))
    · simp only [List.mem_cons, List.not_mem_nil, or_false] at hb
      rcases hb with rfl | rfl | rfl <;> omega
    · simp only [List.mem_cons, List.not_mem_nil, or_false] at hb
      rcases hb with rfl | rfl <;> omega
    · simp only [List.mem_cons, List.not_mem_nil, or_false] at hb
      subst hb
      omega
  have heq : distributeMismatches 4 seed = [p0, p1, p2, p3] := by
    unfold distributeMismatches
    rw [hfold, List.Sorted.insertionSort_eq hsorted]
  rw [heq, calculateCfdScore_of_ne_nil _ (by simp)]
  simp only [List.foldl_cons, List.foldl_nil]
  have e0 : cfdPenaltyLookup p0 = some 0.20 := by
    unfold cfdPenaltyLookup
    rw [if_neg (by omega), if_neg (by omega), if_neg (by omega), if_pos (by omega)]
  have e1 : cfdPenaltyLookup p1 = some 0.40 := by
    unfold cfdPenaltyLookup
    rw [if_neg (by omega), if_neg (by omega), if_pos (by omega)]
  have e2 : cfdPenaltyLookup p2 = some 0.60 := by
    unfold cfdPenaltyLookup
    rw [if_neg (by omega), if_pos (by omega)]
  have e3 : cfdPenaltyLookup p3 = some 0.90 := by
    unfold cfdPenaltyLookup
    rw [if_pos (by omega)]
  simp only [cfdStep, e0, e1, e2, e3]
  norm_num

/-- For the candidate indices 0..8 that can survive the raw filter under
`max_mismatches = 4`, the final (PAM-adjusted) score is at least 0.05. -/
theorem candidate_final_bound (i : Nat) (hle : i ≤ 8) :
    (0.05 : ℚ) ≤ calculateCfdScore (distributeMismatches (min (i / 3 + 1) 4) i) *
      getPamQuality (predictOffTargetPam i) := by
  interval_cases i
  · rw [show distributeMismatches (min (0 / 3 + 1) 4) 0 = [1] from by decide,
      show getPamQuality (predictOffTargetPam 0) = 1.0 from rfl,
      calculateCfdScore_of_ne_nil _ (by decide)]
    norm_num [cfdStep, cfdPenaltyLookup, List.foldl]
  · rw [show distributeMismatches (min (1 / 3 + 1) 4) 1 = [4] from by decide,
      show getPamQuality (predictOffTargetPam 1) = 1.0 from rfl,
      calculateCfdScore_of_ne_nil _ (by decide)]
    norm_num [cfdStep, cfdPenaltyLookup, List.foldl]
  · rw [show distributeMismatches (min (2 / 3 + 1) 4) 2 = [7] from by decide,
      show getPamQuality (predictOffTargetPam 2) = 0.3 from rfl,
      calculateCfdScore_of_ne_nil _ (by decide)]
    norm_num [cfdStep, cfdPenaltyLookup, List.foldl]
  · rw [show distributeMismatches (min (3 / 3 + 1) 4) 3 = [3, 8] from by decide,
      show getPamQuality (predictOffTargetPam 3) = 1.0 from rfl,
      calculateCfdScore_of_ne_nil _ (by decide)]
    norm_num [cfdStep, cfdPenaltyLookup, List.foldl]
  · rw [show distributeMismatches (min (4 / 3 + 1) 4) 4 = [6, 8] from by decide,
      show getPamQuality (predictOffTargetPam 4) = 0.2 from rfl,
      calculateCfdScore_of_ne_nil _ (by decide)]
    norm_num [cfdStep, cfdPenaltyLookup, List.foldl]
  · rw [show distributeMismatches (min (5 / 3 + 1) 4) 5 = [2, 8] from by decide,
      show getPamQuality (predictOffTargetPam 5) = 1.0 from rfl,
      calculateCfdScore_of_ne_nil _ (by decide)]
    norm_num [cfdStep, cfdPenaltyLookup, List.foldl]
  · rw [show distributeMismatches (min (6 / 3 + 1) 4) 6 = [5, 8, 15] from by decide,
      show getPamQuality (predictOffTargetPam 6) = 1.0 from rfl,
      calculateCfdScore_of_ne_nil _ (by decide)]
    norm_num [cfdStep, cfdPenaltyLookup, List.foldl]
  · rw [show distributeMismatches (min (7 / 3 + 1) 4) 7 = [1, 8, 14] from by decide,
      show getPamQuality (predictOffTargetPam 7) = 1.0 from rfl,
      calculateCfdScore_of_ne_nil _ (by decide)]
    norm_num [cfdStep, cfdPenaltyLookup, List.foldl]
  · rw [show distributeMismatches (min (8 / 3 + 1) 4) 8 = [4, 8, 13] from by decide,
      show getPamQuality (predictOffTargetPam 8) = 0.3 from rfl,
      calculateCfdScore_of_ne_nil _ (by decide)]
    norm_num [cfdStep, cfdPenaltyLookup, List.foldl]

/-- With the default `max_mismatches = 4` that `design_guides` always
passes, every returned off-target does have final score at least 0.05:
indices 9 and up are discarded by the raw filter (their raw CFD is 0.0192)
and indices 0..8 all have final score at least 0.0576. -/
theorem predictOffTargetsCfd_default_final_bound (guideSeq : List Char)
    (taxid : String) (maxResults : Nat) :
    List.Forall (fun ot => (0.05 : ℚ) ≤ ot.cfd_score)
      (predictOffTargetsCfd guideSeq taxid 4 maxResults) := by
  rw [List.forall_iff_forall_mem]
  intro ot hmem
  simp only [predictOffTargetsCfd] at hmem
  have hmem2 := (List.take_sublist maxResults _).subset hmem
  have hmem3 := (List.perm_insertionSort
    (fun a b : OffTarget => b.cfd_score ≤ a.cfd_score) _).subset hmem2
  obtain ⟨i, -, hi⟩ := List.mem_filterMap.mp hmem3
  simp only [mkOffTargetCandidate] at hi
  split at hi
  · exact absurd hi (by simp)
  · rename_i hge
    injection hi with hi
    rw [← hi]
    show (0.05 : ℚ) ≤ calculateCfdScore (distributeMismatches (min (i / 3 + 1) 4) i) *
      getPamQuality (predictOffTargetPam i)
    by_cases hc : 9 ≤ i
    · exfalso
      apply hge
      rw [show min (i / 3 + 1) 4 = 4 from by omega, distributeMismatches_four_cfd]
      norm_num
    · exact candidate_final_bound i (by omega)

/-- Claim C2, amended: the discard filter of `_predict_off_targets_cfd`
tests the raw CFD score, before multiplication by PAM quality: every
returned off-target has `CFD(mismatch_positions) ≥ 0.05`, and its stored
`cfd_score` equals that raw CFD times its stored PAM quality. (The final
score itself can be below 0.05, as the counterexample shows.) -/
theorem predictOffTargetsCfd_raw_filter (guideSeq : List Char) (taxid : String)
    (maxMismatches maxResults : Nat) :
    List.Forall
      (fun ot => (0.05 : ℚ) ≤ calculateCfdScore ot.mismatch_positions ∧
        ot.cfd_score = calculateCfdScore ot.mismatch_positions * ot.pam_quality)
      (predictOffTargetsCfd guideSeq taxid maxMismatches maxResults) := by
  rw [List.forall_iff_forall_mem]
  intro ot hmem
  simp only [predictOffTargetsCfd] at hmem
  have hmem2 := (List.take_sublist maxResults _).subset hmem
  have hmem3 := (List.perm_insertionSort
    (fun a b : OffTarget => b.cfd_score ≤ a.cfd_score) _).subset hmem2
  obtain ⟨i, -, hi⟩ := List.mem_filterMap.mp hmem3
  simp only [mkOffTargetCandidate] at hi
  split at hi
  · exact absurd hi (by simp)
  · rename_i hge
    injection hi with hi
    rw [← hi]
    exact ⟨le_of_not_lt hge, rfl⟩

/-! ## Claim C5 -/

/-- Claim C5: every record list produced by the real-sequence path of
`design_guides` has at most 20 records and is sorted descending by
`doench_score * specificity_score` on all adjacent pairs; and the sort is
stable: any two candidates in discovery order whose keys do not force a
swap — in particular any two tied candidates — keep their relative order
in the sorted list. -/
theorem designGuides_sorted_top20 (cas : CasType) (sequence : List Char)
    (exons : List ExonWindow) (cdsStart : Nat) (targetExons : Option (List Nat))
    (geneSymbol taxid : String) (pathwayNeighbors : Option (List String))
    (params : DesignParams) :
    (designGuidesRecords cas sequence exons cdsStart targetExons geneSymbol taxid
        pathwayNeighbors params).length ≤ 20 ∧
      List.Chain' (fun a b => recordCompositeScore b ≤ recordCompositeScore a)
        (designGuidesRecords cas sequence exons cdsStart targetExons geneSymbol taxid
          pathwayNeighbors params) ∧
      List.Chain' (fun a b => guideSortKey b ≤ guideSortKey a)
        (designGuideList cas sequence exons cdsStart targetExons geneSymbol taxid
          pathwayNeighbors params) ∧
      (∀ a b : GuideRNA, guideSortKey b ≤ guideSortKey a →
        List.Sublist [a, b] (candidateGuides cas sequence exons cdsStart targetExons
          geneSymbol taxid pathwayNeighbors params) →
        List.Sublist [a, b] ((candidateGuides cas sequence exons cdsStart targetExons
          geneSymbol taxid pathwayNeighbors params).insertionSort
            (fun a b => guideSortKey b ≤ guideSortKey a))) := by
  haveI htot : IsTotal GuideRNA (fun a b => guideSortKey b ≤ guideSortKey a) :=
    ⟨fun a b => le_total (guideSortKey b) (guideSortKey a)⟩
  haveI htrans : IsTrans GuideRNA (fun a b => guideSortKey b ≤ guideSortKey a) :=
    ⟨fun _ _ _ hab hbc => le_trans hbc hab⟩
  have hsorted : List.Chain' (fun a b => guideSortKey b ≤ guideSortKey a)
      (designGuideList cas sequence exons cdsStart targetExons geneSymbol taxid
        pathwayNeighbors params) := by
    unfold designGuideList
    apply List.Pairwise.chain'
    exact List.Pairwise.sublist (List.take_sublist 20 _)
      (List.sorted_insertionSort (fun a b => guideSortKey b ≤ guideSortKey a) _)
  refine ⟨?_, ?_, hsorted, ?_⟩
  · unfold designGuidesRecords designGuideList
    rw [List.length_map, List.length_take]
    omega
  · unfold designGuidesRecords
    rw [List.chain'_map]
    have hkey : ∀ g : GuideRNA, recordCompositeScore (GuideRNA.toDict g) = guideSortKey g :=
      fun g => rfl
    refine List.Chain'.imp ?_ hsorted
    intro a b h
    rw [hkey a, hkey b]
    exact h
  · intro a b hab hsub
    exact List.pair_sublist_insertionSort hab hsub

/-- Claim C5, witness: a concrete instantiation of the bound (the empty
sequence yields no candidates, trivially within the bound). -/
theorem designGuides_sorted_top20_witness :
    (designGuidesRecords CasType.SPCAS9 [] [] 0 none "BRCA1" "9606" none
      ({} : DesignParams)).length ≤ 20 :=
  (designGuides_sorted_top20 CasType.SPCAS9 [] [] 0 none "BRCA1" "9606" none
    ({} : DesignParams)).1

end KSites